import Mathlib

/-!
Shallow embedding of the Auryn example simulation harness `sim_bcpnn`
(`src/unnamed/part_000`): the `main` function that parses options, validates
the fan-in constraint, builds a Poisson → TIF feed-forward topology with an
optional STDP and/or BCPNN plastic connection, wires monitors, runs the
kernel, and reduces per-rank non-zero synapse counts to rank 0.

Modelling conventions:
* C floating point values (`double`, `AurynFloat`) are modelled as `ℚ`
  (the spec asks only for exactness "within floating-point tolerance");
* `NeuronID` / `unsigned int` values are `ℕ`, `int` values are `ℤ`; the C
  conversion of an `int` to `unsigned int` in mixed comparisons such as
  `nbinputs < ipre` is made explicit by `uwrap`;
* the out-of-scope simulation kernel and MPI layer are an oracle
  (`Kernel`): rank id, number of ranks, the boolean result of `sys->run`,
  and each connection's per-rank `get_nonzero()` counts;
* side effects that the claims talk about (object construction, monitor
  attachment, pointer dereferences guarded by the plasticity flags, the
  rank-0 report, `auryn_free` teardown) are recorded in a `RunOutcome`.
-/

namespace SimBcpnn

/-- The two neuron populations built by `main`: `poisson = new
PoissonGroup(nbinputs,kappa)` and `poneurons = new TIFGroup(size)`. -/
inductive PopId where
  | poisson
  | poneurons
deriving DecidableEq, Repr

/-- Heap objects constructed by `main` (populations and connections). -/
inductive ObjId where
  | poisson
  | poneurons
  | spCon
  | stdpCon
  | bcpnnCon
deriving DecidableEq, Repr

/-- The local variables of `main` after the option-application block:
defaults from lines 56–83 of the source, possibly overwritten by parsed
options. -/
structure Config where
  dir : String
  simtime : ℚ
  nbinputs : ℕ
  size : ℕ
  seed : ℕ
  kappa : ℚ
  sparseness : ℚ
  npostsyn : ℚ
  winit : ℚ
  with_stdp : Bool
  with_bcpnn : Bool
  nomon : Bool
  ipre : ℤ
  ipost : ℤ
  tau_pre : ℚ
  tau_post : ℚ
  eta : ℚ
  tau_z_pr : ℚ
  tau_z_po : ℚ
  tau_p : ℚ
deriving DecidableEq, Repr

/-- The default values of `main`'s locals (source lines 56–83). -/
def defaultConfig : Config where
  dir := "."
  simtime := 10
  nbinputs := 100
  size := 25
  seed := 1
  kappa := 20
  sparseness := 0.5
  npostsyn := 100
  winit := 0.02
  with_stdp := false
  with_bcpnn := false
  nomon := false
  ipre := 5
  ipost := 5
  tau_pre := 20e-3
  tau_post := 20e-3
  eta := 1.0e-3
  tau_z_pr := 25e-3
  tau_z_po := 10e-3
  tau_p := 0.2

/-- The recognised command-line options (source lines 89–106); `none` means
the option was not given on the command line. -/
structure Options where
  help : Bool
  dir : Option String
  simtime : Option ℚ
  with_stdp : Option Bool
  with_bcpnn : Option Bool
  winit : Option ℚ
  kappa : Option ℚ
  nbinputs : Option ℤ
  size : Option ℤ
  npostsyn : Option ℤ
  ipre : Option ℤ
  ipost : Option ℤ
  seed : Option ℤ
  nomon : Option Bool
deriving DecidableEq, Repr

/-- C conversion of an `int` value to `unsigned int` (32-bit wrap-around),
used where the source compares or assigns an `int` to a `NeuronID`. -/
def uwrap (i : ℤ) : ℕ := (i % (2 ^ 32 : ℤ)).toNat

/-- The option-application block (source lines 116–170): each present
option overwrites the corresponding default.  `nbinputs`, `size` and `seed`
are unsigned variables assigned from `as<int>()`; `npostsyn` is an
`AurynFloat` assigned from `as<int>()`. -/
def applyOptions (o : Options) : Config :=
  { defaultConfig with
    dir := o.dir.getD defaultConfig.dir
    simtime := o.simtime.getD defaultConfig.simtime
    with_stdp := o.with_stdp.getD defaultConfig.with_stdp
    with_bcpnn := o.with_bcpnn.getD defaultConfig.with_bcpnn
    winit := o.winit.getD defaultConfig.winit
    kappa := o.kappa.getD defaultConfig.kappa
    nbinputs := match o.nbinputs with
      | some i => uwrap i
      | none => defaultConfig.nbinputs
    size := match o.size with
      | some i => uwrap i
      | none => defaultConfig.size
    npostsyn := match o.npostsyn with
      | some i => (i : ℚ)
      | none => defaultConfig.npostsyn
    ipre := o.ipre.getD defaultConfig.ipre
    ipost := o.ipost.getD defaultConfig.ipost
    seed := match o.seed with
      | some i => uwrap i
      | none => defaultConfig.seed
    nomon := o.nomon.getD defaultConfig.nomon }

/-- Refractory time of the TIF neurons (source line 198). -/
def refractory_period : ℚ := 5e-3

/-- The fields of the `STDPConnection` that `main` sets after constructing
it (source lines 207–210). -/
structure StdpParams where
  A : ℚ
  B : ℚ
  min_weight : ℚ
  max_weight : ℚ
deriving DecidableEq, Repr

/-- The parameters `main` passes to / sets on the `BcpnnConnection`
(source lines 215–218). -/
structure BcpnnParams where
  wgain : ℚ
  bgain : ℚ
  tau_pre : ℚ
  tau_z_pr : ℚ
  tau_z_po : ℚ
  tau_p : ℚ
  refractory : ℚ
deriving DecidableEq, Repr

/-- STDP configuration step (source lines 205–211): performed only when
`with_stdp` is set; `A = -1.20*tau_post/tau_pre*eta`, `B = eta`, weight
bounds `[0, 1]`. -/
def stdpSetup (c : Config) : Option StdpParams :=
  if c.with_stdp then
    some { A := -1.20 * c.tau_post / c.tau_pre * c.eta
           B := c.eta
           min_weight := 0.0
           max_weight := 1.0 }
  else none

/-- BCPNN configuration step (source lines 214–219): performed only when
`with_bcpnn` is set; `set_wgain(1e-4)` and `set_bgain(1e-4)`. -/
def bcpnnSetup (c : Config) : Option BcpnnParams :=
  if c.with_bcpnn then
    some { wgain := 1e-4
           bgain := 1e-4
           tau_pre := c.tau_pre
           tau_z_pr := c.tau_z_pr
           tau_z_po := c.tau_z_po
           tau_p := c.tau_p
           refractory := refractory_period }
  else none

/-- The parameters derived by the configuration layer: the sparseness
recomputed at source line 191 (`sparseness = (float)npostsyn/nbinputs;`)
and the plasticity parameters of whichever rules are selected. -/
structure Derived where
  sparseness : ℚ
  stdp : Option StdpParams
  bcpnn : Option BcpnnParams
deriving DecidableEq, Repr

/-- Derivation of the structural and plasticity parameters
(source lines 191, 204–219). -/
def deriveParams (c : Config) : Derived where
  sparseness := c.npostsyn / (c.nbinputs : ℚ)
  stdp := stdpSetup c
  bcpnn := bcpnnSetup c

/-- The monitor objects `main` can construct (source lines 244–261), with
their constructor arguments.  The `WeightMonitor`s attach to `bcpnn_con`,
whose source population is `poisson` and target population is
`poneurons`. -/
inductive Monitor where
  | preTraceMon (p : PopId) (tau : ℚ) (idx : ℤ) (file : String)
  | postTraceMon (p : PopId) (statevar : String) (idx : ℤ) (file : String)
  | stateMon (p : PopId) (idx : ℤ) (statevar : String) (file : String)
  | weightMon (conn : ObjId) (i j : ℤ) (file : String) (interval : ℚ) (z : ℕ)
  | spikeMon (p : PopId) (file : String)
deriving DecidableEq, Repr

/-- The (population, unit index) pairs a monitor binds.  Both connections
of this program go from `poisson` to `poneurons`, so a `WeightMonitor`'s
row index `i` addresses `poisson` and its column index `j` addresses
`poneurons`. -/
def Monitor.binds : Monitor → List (PopId × ℤ)
  | .preTraceMon p _ i _ => [(p, i)]
  | .postTraceMon p _ i _ => [(p, i)]
  | .stateMon p i _ _ => [(p, i)]
  | .weightMon _ i j _ _ _ => [(PopId.poisson, i), (PopId.poneurons, j)]
  | .spikeMon _ _ => []

/-- Trace and weight probes, as opposed to spike recorders. -/
def Monitor.isProbe : Monitor → Bool
  | .preTraceMon _ _ _ _ => true
  | .postTraceMon _ _ _ _ => true
  | .stateMon _ _ _ _ => true
  | .weightMon _ _ _ _ _ _ => true
  | .spikeMon _ _ => false

/-- The size of each population as constructed by `main`
(source lines 196, 200). -/
def popSize (c : Config) : PopId → ℕ
  | .poisson => c.nbinputs
  | .poneurons => c.size

/-- The trace/weight probes attached when `with_bcpnn` is set
(source lines 244–256), in construction order. -/
def bcpnnProbes (c : Config) : List Monitor :=
  [ .preTraceMon .poisson c.tau_z_pr c.ipre "zi"
  , .postTraceMon .poneurons "tr_z_post" c.ipost "zj"
  , .postTraceMon .poneurons "tr_p_post" c.ipost "pj"
  , .stateMon .poneurons c.ipost "bj_post" "bj"
  , .weightMon .bcpnnCon c.ipre c.ipost "pi" 0.01 2
  , .weightMon .bcpnnCon c.ipre c.ipost "pij" 0.001 1
  , .weightMon .bcpnnCon c.ipre c.ipost "wij" 0.01 0 ]

/-- The spike recorders attached unconditionally inside the
`if (not nomon)` block (source lines 260–261). -/
def spikeRecorders : List Monitor :=
  [ .spikeMon .poisson "prspikes", .spikeMon .poneurons "pospikes" ]

/-- All monitors constructed by `main` (source lines 223–271): nothing when
`nomon` is set; otherwise the BCPNN probes (only when `with_bcpnn`)
followed by the two spike recorders. -/
def monitorList (c : Config) : List Monitor :=
  if c.nomon then []
  else (if c.with_bcpnn then bcpnnProbes c else []) ++ spikeRecorders

/-- Oracle for the out-of-scope kernel and MPI layer: this rank's id, the
number of cooperating ranks, the boolean result of `sys->run(simtime)`,
and per-rank `get_nonzero()` counts for each of the three connections
(entry `r` of a list is the count rank `r` would contribute to the
reduction). -/
structure Kernel where
  rank : ℕ
  nranks : ℕ
  runOk : Bool
  spCounts : List ℤ
  stdpCounts : List ℤ
  bcpnnCounts : List ℤ
deriving DecidableEq, Repr

/-- `MPI_Reduce(..., MPI_SUM, 0, ...)`: the value delivered at the root is
the sum of every rank's contribution. -/
def mpiReduceSum (xs : List ℤ) : ℤ := xs.sum

/-- The values printed by the rank-0 reporting block
(source lines 299–309). -/
structure Report where
  gnsyn : ℤ
  stdp_gnsyn : Option ℤ
  bcpnn_gnsyn : Option ℤ
deriving DecidableEq, Repr

/-- The accesses to the conditionally-constructed plasticity handles and to
the reduced global counts, recorded as events. -/
inductive Event where
  | derefStdpSetup
  | derefBcpnnSetup
  | derefStdpCount
  | derefBcpnnCount
  | reduceStdp
  | reduceBcpnn
  | readStdpGlobal
  | readBcpnnGlobal
deriving DecidableEq, Repr

/-- How `main` terminated: a normal `return code`, the abrupt `exit(code)`
at source line 182, or `auryn_abort(code)`. -/
inductive ExitKind where
  | ret (code : ℤ)
  | exited (code : ℤ)
  | aborted (code : ℤ)
deriving DecidableEq, Repr

/-- Everything observable about one execution of `main` past the parsing
stage: the termination status, which heap objects were constructed, the
derived parameters (none if execution exited before deriving them), the
monitors attached, the rank-0 report (none off rank 0 or if never
reached), the handle-access events, and whether `auryn_free` ran. -/
structure RunOutcome where
  status : ExitKind
  objects : List ObjId
  derived : Option Derived
  monitors : List Monitor
  report : Option Report
  events : List Event
  teardown : Bool
deriving DecidableEq, Repr

/-- The population and connection objects constructed by `main`
(source lines 196–219), in construction order. -/
def topologyObjects (c : Config) : List ObjId :=
  [ObjId.poisson, ObjId.poneurons, ObjId.spCon]
    ++ (if c.with_stdp then [ObjId.stdpCon] else [])
    ++ (if c.with_bcpnn then [ObjId.bcpnnCon] else [])

/-- Handle dereferences during the plasticity-configuration phase
(source lines 205–219). -/
def setupEvents (c : Config) : List Event :=
  (if c.with_stdp then [Event.derefStdpSetup] else [])
    ++ (if c.with_bcpnn then [Event.derefBcpnnSetup] else [])

/-- Handle dereferences during the count/reduce phase
(source lines 285–297). -/
def countEvents (c : Config) : List Event :=
  (if c.with_stdp then [Event.derefStdpCount, Event.reduceStdp] else [])
    ++ (if c.with_bcpnn then [Event.derefBcpnnCount, Event.reduceBcpnn] else [])

/-- Reads of the reduced global counts inside the rank-0 reporting block
(source lines 299–309). -/
def reportEvents (c : Config) (k : Kernel) : List Event :=
  if k.rank = 0 then
    (if c.with_stdp then [Event.readStdpGlobal] else [])
      ++ (if c.with_bcpnn then [Event.readBcpnnGlobal] else [])
  else []

/-- The rank-0 report (source lines 299–309): the reduced non-plastic
count always, the reduced STDP / BCPNN counts only under their flags. -/
def rankReport (c : Config) (k : Kernel) : Option Report :=
  if k.rank = 0 then
    some { gnsyn := mpiReduceSum k.spCounts
           stdp_gnsyn := if c.with_stdp then some (mpiReduceSum k.stdpCounts) else none
           bcpnn_gnsyn := if c.with_bcpnn then some (mpiReduceSum k.bcpnnCounts) else none }
  else none

/-- `main` after the option-parsing block (source lines 180–315):
1. fan-in check `npostsyn > nbinputs` → `exit(0)` before any construction;
2. derive sparseness, build topology, configure plasticity;
3. if monitoring, bounds checks `nbinputs < ipre` → `auryn_abort(4711)`
   and `size < ipost` → `auryn_abort(4712)` before any monitor is built,
   then attach monitors;
4. run the kernel (`errcode = 1` on failure), reduce per-rank counts,
   report at rank 0, free and return `errcode`.
The C comparisons `nbinputs < ipre` and `size < ipost` convert the signed
`ipre` / `ipost` to `unsigned int`, hence `uwrap`. -/
def mainRun (c : Config) (k : Kernel) : RunOutcome :=
  if c.npostsyn > (c.nbinputs : ℚ) then
    { status := .exited 0, objects := [], derived := none, monitors := []
      report := none, events := [], teardown := false }
  else if c.nomon = false ∧ c.nbinputs < uwrap c.ipre then
    { status := .aborted 4711, objects := topologyObjects c
      derived := some (deriveParams c), monitors := []
      report := none, events := setupEvents c, teardown := false }
  else if c.nomon = false ∧ c.size < uwrap c.ipost then
    { status := .aborted 4712, objects := topologyObjects c
      derived := some (deriveParams c), monitors := []
      report := none, events := setupEvents c, teardown := false }
  else
    { status := .ret (if k.runOk then 0 else 1)
      objects := topologyObjects c
      derived := some (deriveParams c)
      monitors := monitorList c
      report := rankReport c k
      events := setupEvents c ++ countEvents c ++ reportEvents c k
      teardown := true }

/-- The possible results of the `try { ... }` option-parsing block
(source lines 87–178), an interface to the out-of-scope boost parser:
either the options were parsed (`parsed`), or a `std::exception` was
thrown (`stdExc`, caught at line 172), or an exception of unknown type
was thrown (`unknownExc`, caught at line 176) leaving the local variables
in some state `c`. -/
inductive ParseOutcome where
  | parsed (o : Options)
  | stdExc
  | unknownExc (c : Config)
deriving DecidableEq, Repr

/-- `RunOutcome` of an execution that returns `code` from inside the
parsing stage, before anything is built. -/
def earlyReturn (code : ℤ) : RunOutcome :=
  { status := .ret code, objects := [], derived := none, monitors := []
    report := none, events := [], teardown := false }

/-- The whole of `main`: the `--help` branch returns 1 (line 113); the
`std::exception` handler returns 1 (line 174); the unknown-exception
handler prints a message and falls through WITHOUT returning (lines
176–178), so execution continues into `mainRun` with whatever variable
state the aborted parse left. -/
def program (po : ParseOutcome) (k : Kernel) : RunOutcome :=
  match po with
  | .parsed o => if o.help then earlyReturn 1 else mainRun (applyOptions o) k
  | .stdExc => earlyReturn 1
  | .unknownExc c => mainRun c k

/-! Concrete fixtures used by witnesses and counterexamples. -/

/-- A deterministic kernel oracle: rank 0 of 3, successful run, per-rank
counts `[3,4,5]`, `[1,2,3]`, `[6,7,8]`. -/
def kDet : Kernel where
  rank := 0
  nranks := 3
  runOk := true
  spCounts := [3, 4, 5]
  stdpCounts := [1, 2, 3]
  bcpnnCounts := [6, 7, 8]

/-- The same oracle but with `sys->run` reporting failure. -/
def kFail : Kernel := { kDet with runOk := false }

/-- The spec's fan-in violation scenario: `npostsyn=150` with
`nbinputs=100`. -/
def cFanin : Config := { defaultConfig with npostsyn := 150 }

/-- The spec's derived-sparseness scenario given as command-line options:
`nbinputs=100, size=25, npostsyn=100`, everything else defaulted. -/
def oFanin : Options where
  help := false
  dir := none
  simtime := none
  with_stdp := none
  with_bcpnn := none
  winit := none
  kappa := none
  nbinputs := some 100
  size := some 25
  npostsyn := some 100
  ipre := none
  ipost := none
  seed := none
  nomon := none

/-- The pair-rule scenario: STDP selected, default
`tau_pre = tau_post = 0.02`, `eta = 1e-3`. -/
def cStdp : Config := { defaultConfig with with_stdp := true }

/-- Monitoring with `ipre` equal to the input population size. -/
def cBadPre : Config := { defaultConfig with with_bcpnn := true, ipre := 100 }

/-- Monitoring with `ipre` beyond the input population size. -/
def cAbortPre : Config := { defaultConfig with ipre := 200 }

/-- Both plasticity flags set, monitoring on, defaults otherwise. -/
def cBoth : Config := { defaultConfig with with_stdp := true, with_bcpnn := true }

/-- The report `kDet` produces at rank 0 when both rules are present. -/
def rBoth : Report where
  gnsyn := 12
  stdp_gnsyn := some 6
  bcpnn_gnsyn := some 21

/-! Helper lemmas. -/

/-- `uwrap` is the identity on values already in `unsigned int` range. -/
theorem uwrap_cast_eq {i : ℤ} (h1 : 0 ≤ i) (h2 : i < 2 ^ 32) :
    (uwrap i : ℤ) = i := by
  unfold uwrap
  rw [Int.emod_eq_of_lt h1 (by norm_num at h2 ⊢; exact h2), Int.toNat_of_nonneg h1]

/-- Every (population, index) pair bound by an attached monitor is either
`(poisson, ipre)` or `(poneurons, ipost)`. -/
theorem binds_of_monitorList {c : Config} {m : Monitor} (hm : m ∈ monitorList c)
    {b : PopId × ℤ} (hb : b ∈ m.binds) :
    b = (PopId.poisson, c.ipre) ∨ b = (PopId.poneurons, c.ipost) := by
  unfold monitorList at hm
  by_cases hn : c.nomon <;> by_cases hw : c.with_bcpnn <;>
    simp [hn, hw, bcpnnProbes, spikeRecorders] at hm
  · rcases hm with rfl | rfl | rfl | rfl | rfl | rfl | rfl | rfl | rfl <;>
      simp [Monitor.binds] at hb <;> tauto
  · rcases hm with rfl | rfl <;> simp [Monitor.binds] at hb

/-! Claim theorems. -/

/-- C1: whenever the requested fan-in exceeds the input population size
(`npostsyn > nbinputs`), `main` terminates through the abrupt `exit(0)` —
status code 0, the code normally meaning success — before any population,
connection or monitor object is constructed and before any parameter is
derived. -/
theorem fanin_check_exits_before_construction (c : Config) (k : Kernel)
    (h : c.npostsyn > (c.nbinputs : ℚ)) :
    (mainRun c k).status = ExitKind.exited 0 ∧ (mainRun c k).objects = [] ∧
    (mainRun c k).monitors = [] ∧ (mainRun c k).derived = none := by
  unfold mainRun
  rw [if_pos h]
  exact ⟨rfl, rfl, rfl, rfl⟩

/-- C1 witness: the spec scenario `nbinputs=100, npostsyn=150`. -/
theorem fanin_check_exits_before_construction_witness :
    (mainRun cFanin kDet).status = ExitKind.exited 0 ∧
    (mainRun cFanin kDet).objects = [] ∧
    (mainRun cFanin kDet).monitors = [] ∧
    (mainRun cFanin kDet).derived = none :=
  fanin_check_exits_before_construction cFanin kDet (by decide)

/-- C2: whenever the fan-in option `npostsyn` is given (value `n`), the
derived sparseness of any completed derivation equals `n / nbinputs`
exactly (floating-point values are modelled as rationals). -/
theorem sparseness_from_npostsyn (o : Options) (k : Kernel) (n : ℤ) (d : Derived)
    (hn : o.npostsyn = some n)
    (hd : (program (ParseOutcome.parsed o) k).derived = some d) :
    d.sparseness = (n : ℚ) / (((applyOptions o).nbinputs : ℕ) : ℚ) := by
  have hp : (applyOptions o).npostsyn = (n : ℚ) := by
    simp [applyOptions, hn]
  simp only [program] at hd
  by_cases hh : o.help = true
  · simp [hh, earlyReturn] at hd
  · rw [if_neg hh] at hd
    unfold mainRun at hd
    split_ifs at hd <;>
      simp only [Option.some.injEq] at hd <;>
      first
        | exact Option.noConfusion hd
        | (subst hd; simp [deriveParams, hp])

/-- C2 witness: options `nbinputs=100, size=25, npostsyn=100` derive
sparseness `100/100 = 1.0`. -/
theorem sparseness_from_npostsyn_witness :
    (program (ParseOutcome.parsed oFanin) kDet).derived =
      some (deriveParams (applyOptions oFanin)) ∧
    (deriveParams (applyOptions oFanin)).sparseness =
      ((100 : ℤ) : ℚ) / (((applyOptions oFanin).nbinputs : ℕ) : ℚ) ∧
    (deriveParams (applyOptions oFanin)).sparseness = 1 :=
  ⟨rfl,
   sparseness_from_npostsyn oFanin kDet 100 (deriveParams (applyOptions oFanin)) rfl rfl,
   by
     have h100 : Int.toNat 100 = 100 := rfl
     norm_num [deriveParams, applyOptions, oFanin, defaultConfig, uwrap, h100]⟩

/-- C3: when the pair (STDP) rule is selected, the connection is configured
with potentiation coefficient `A = -1.20 * tau_post / tau_pre * eta`,
depression coefficient `B = eta`, minimum weight 0 and maximum weight 1. -/
theorem stdp_pair_rule_params (c : Config) (k : Kernel) (d : Derived)
    (hs : c.with_stdp = true)
    (hd : (mainRun c k).derived = some d) :
    d.stdp = some { A := -1.20 * c.tau_post / c.tau_pre * c.eta
                    B := c.eta
                    min_weight := 0
                    max_weight := 1 } := by
  unfold mainRun at hd
  split_ifs at hd <;>
    simp only [Option.some.injEq] at hd <;>
    first
      | exact Option.noConfusion hd
      | (subst hd; norm_num [deriveParams, stdpSetup, hs])

/-- C3 witness: with defaults `tau_pre = tau_post = 0.02` and `eta = 1e-3`,
the configured potentiation coefficient evaluates to `-1.2e-3` and the
depression coefficient to `1e-3`. -/
theorem stdp_pair_rule_params_witness :
    (deriveParams cStdp).stdp =
      some { A := -1.20 * cStdp.tau_post / cStdp.tau_pre * cStdp.eta
             B := cStdp.eta
             min_weight := 0
             max_weight := 1 } ∧
    -1.20 * cStdp.tau_post / cStdp.tau_pre * cStdp.eta = -(1.2e-3 : ℚ) ∧
    cStdp.eta = (1e-3 : ℚ) :=
  ⟨stdp_pair_rule_params cStdp kDet (deriveParams cStdp) rfl rfl,
   by norm_num [cStdp, defaultConfig],
   by norm_num [cStdp, defaultConfig]⟩

/-- C4 counterexample: with monitoring enabled, `with_bcpnn` set and
`ipre = 100` equal to `nbinputs = 100`, the bounds check passes — the run
completes normally (status 0, no abort) — yet monitors are constructed
whose bound unit index 100 is NOT strictly less than the target
population's size 100.  The source check is `nbinputs < ipre`, which lets
`ipre = nbinputs` through. -/
theorem monitor_index_not_strictly_bounded :
    (mainRun cBadPre kDet).status = ExitKind.ret 0 ∧
    ∃ m ∈ (mainRun cBadPre kDet).monitors, ∃ b ∈ m.binds,
      ¬(b.2 < (popSize cBadPre b.1 : ℤ)) := by decide

/-- C4 (amended): when monitoring is enabled, an input-side violation
`ipre > nbinputs` aborts with code 4711 and an output-side violation
`ipost > size` (with the input side in range) aborts with code 4712, in
both cases before any monitor object is created; in every run that
completes, each monitor's bound unit index is at most (not necessarily
strictly less than) its target population's size.  Comparisons convert the
signed index to `unsigned int` (`uwrap`); the range hypotheses on `ipre` /
`ipost` say they hold `int` values representable in that range. -/
theorem monitor_bound_checks (c : Config) (k : Kernel)
    (hn : c.npostsyn ≤ (c.nbinputs : ℚ)) :
    ((c.nomon = false ∧ c.nbinputs < uwrap c.ipre) →
        (mainRun c k).status = ExitKind.aborted 4711 ∧
        (mainRun c k).monitors = []) ∧
    ((c.nomon = false ∧ ¬c.nbinputs < uwrap c.ipre ∧ c.size < uwrap c.ipost) →
        (mainRun c k).status = ExitKind.aborted 4712 ∧
        (mainRun c k).monitors = []) ∧
    ((mainRun c k).teardown = true → 0 ≤ c.ipre → c.ipre < 2 ^ 32 →
        0 ≤ c.ipost → c.ipost < 2 ^ 32 →
        ∀ m ∈ (mainRun c k).monitors, ∀ b ∈ m.binds,
          b.2 ≤ (popSize c b.1 : ℤ)) := by
  have hlt : ¬c.npostsyn > (c.nbinputs : ℚ) := not_lt.mpr hn
  unfold mainRun
  rw [if_neg hlt]
  by_cases hA : c.nomon = false ∧ c.nbinputs < uwrap c.ipre
  · rw [if_pos hA]
    exact ⟨fun _ => ⟨rfl, rfl⟩,
      fun h => absurd hA.2 h.2.1,
      fun ht => absurd ht (by simp)⟩
  · rw [if_neg hA]
    by_cases hB : c.nomon = false ∧ c.size < uwrap c.ipost
    · rw [if_pos hB]
      exact ⟨fun h => absurd h hA,
        fun _ => ⟨rfl, rfl⟩,
        fun ht => absurd ht (by simp)⟩
    · rw [if_neg hB]
      refine ⟨fun h => absurd h hA, fun h => absurd ⟨h.1, h.2.2⟩ hB, ?_⟩
      intro _ hp1 hp2 hp3 hp4 m hm b hb
      by_cases hnm : c.nomon = true
      · simp [monitorList, hnm] at hm
      · have hnm' : c.nomon = false := by
          simpa using hnm
        have hA2 : ¬c.nbinputs < uwrap c.ipre := fun hh => hA ⟨hnm', hh⟩
        have hB2 : ¬c.size < uwrap c.ipost := fun hh => hB ⟨hnm', hh⟩
        have e1 : (uwrap c.ipre : ℤ) = c.ipre := uwrap_cast_eq hp1 hp2
        have e2 : (uwrap c.ipost : ℤ) = c.ipost := uwrap_cast_eq hp3 hp4
        rcases binds_of_monitorList hm hb with rfl | rfl <;> simp [popSize] <;> omega

/-- C4 witness (for the amended theorem): monitoring with `ipre = 200`
against `nbinputs = 100` aborts with code 4711 and no monitor object. -/
theorem monitor_bound_checks_witness :
    (mainRun cAbortPre kDet).status = ExitKind.aborted 4711 ∧
    (mainRun cAbortPre kDet).monitors = [] :=
  (monitor_bound_checks cAbortPre kDet (by decide)).1 (by decide)

/-- C5: whenever a report is produced, it is produced at rank 0, its
non-plastic global count is exactly the sum of every rank's local count,
and each plastic rule's global count is the sum of its per-rank counts when
the rule's flag is set but is skipped (absent) when the flag is not set —
for any number of cooperating ranks ≥ 1. -/
theorem reduced_counts_sum (c : Config) (k : Kernel) (r : Report)
    (h1 : 1 ≤ k.nranks) (h2 : k.spCounts.length = k.nranks)
    (h3 : k.stdpCounts.length = k.nranks) (h4 : k.bcpnnCounts.length = k.nranks)
    (hr : (mainRun c k).report = some r) :
    k.rank = 0 ∧ r.gnsyn = k.spCounts.sum ∧
    (c.with_stdp = true → r.stdp_gnsyn = some k.stdpCounts.sum) ∧
    (c.with_stdp = false → r.stdp_gnsyn = none) ∧
    (c.with_bcpnn = true → r.bcpnn_gnsyn = some k.bcpnnCounts.sum) ∧
    (c.with_bcpnn = false → r.bcpnn_gnsyn = none) := by
  unfold mainRun at hr
  split_ifs at hr <;> try exact Option.noConfusion hr
  all_goals
    replace hr : rankReport c k = some r := hr
    unfold rankReport at hr
    by_cases hk : k.rank = 0
    · rw [if_pos hk] at hr
      simp only [Option.some.injEq] at hr
      subst hr
      exact ⟨hk, rfl,
        fun hs => by simp [hs, mpiReduceSum],
        fun hs => by simp [hs],
        fun hb => by simp [hb, mpiReduceSum],
        fun hb => by simp [hb]⟩
    · rw [if_neg hk] at hr
      exact Option.noConfusion hr

/-- C5 witness: both rules present, three ranks with counts `[3,4,5]`,
`[1,2,3]`, `[6,7,8]` → global counts 12, 6 and 21 at rank 0. -/
theorem reduced_counts_sum_witness :
    kDet.rank = 0 ∧ rBoth.gnsyn = kDet.spCounts.sum ∧
    (cBoth.with_stdp = true → rBoth.stdp_gnsyn = some kDet.stdpCounts.sum) ∧
    (cBoth.with_stdp = false → rBoth.stdp_gnsyn = none) ∧
    (cBoth.with_bcpnn = true → rBoth.bcpnn_gnsyn = some kDet.bcpnnCounts.sum) ∧
    (cBoth.with_bcpnn = false → rBoth.bcpnn_gnsyn = none) :=
  reduced_counts_sum cBoth kDet rBoth (by decide) (by decide) (by decide)
    (by decide) (by decide)

/-- C6: if the kernel's run reports failure, the overall status is the
normal return with code 1 (not an abort); the teardown still happens, and
at rank 0 the per-rank counts are still reduced and reported. -/
theorem kernel_failure_still_reports (c : Config) (k : Kernel)
    (hn : c.npostsyn ≤ (c.nbinputs : ℚ))
    (hA : ¬(c.nomon = false ∧ c.nbinputs < uwrap c.ipre))
    (hB : ¬(c.nomon = false ∧ c.size < uwrap c.ipost))
    (hf : k.runOk = false) :
    (mainRun c k).status = ExitKind.ret 1 ∧
    (mainRun c k).teardown = true ∧
    (mainRun c k).report = rankReport c k ∧
    (k.rank = 0 → ∃ r, (mainRun c k).report = some r ∧
      r.gnsyn = mpiReduceSum k.spCounts) := by
  have hlt : ¬c.npostsyn > (c.nbinputs : ℚ) := not_lt.mpr hn
  unfold mainRun
  rw [if_neg hlt, if_neg hA, if_neg hB]
  refine ⟨by simp [hf], rfl, rfl, fun hk => ?_⟩
  refine ⟨{ gnsyn := mpiReduceSum k.spCounts
            stdp_gnsyn := if c.with_stdp then some (mpiReduceSum k.stdpCounts) else none
            bcpnn_gnsyn := if c.with_bcpnn then some (mpiReduceSum k.bcpnnCounts) else none },
    ?_, rfl⟩
  simp [rankReport, hk]

/-- C6 witness: the default configuration with a failing kernel run at
rank 0 returns 1 yet still tears down and reports. -/
theorem kernel_failure_still_reports_witness :
    (mainRun defaultConfig kFail).status = ExitKind.ret 1 ∧
    (mainRun defaultConfig kFail).teardown = true ∧
    (mainRun defaultConfig kFail).report = rankReport defaultConfig kFail ∧
    (kFail.rank = 0 → ∃ r, (mainRun defaultConfig kFail).report = some r ∧
      r.gnsyn = mpiReduceSum kFail.spCounts) :=
  kernel_failure_still_reports defaultConfig kFail (by decide) (by decide)
    (by decide) rfl

/-- C7 counterexample: when the option-parsing stage ends with an exception
of unknown type, the `catch(...)` handler logs and falls through WITHOUT
returning; with default variable state and a successful kernel run the
process completes the whole pipeline and returns status 0 — the exception
is caught and logged but is NOT converted into a non-success exit
status. -/
theorem unknown_exception_exits_success :
    (program (ParseOutcome.unknownExc defaultConfig) kDet).status =
      ExitKind.ret 0 ∧
    (program (ParseOutcome.unknownExc defaultConfig) kDet).teardown = true := by
  decide

/-- C7 (amended): no exception escapes the parsing stage, but only
`std::exception`-derived exceptions are converted to the non-success return
status 1 before anything is constructed; an exception of unknown type is
caught and logged, after which execution simply continues into the rest of
`main` with whatever variable state the aborted parse left (and may
therefore still exit with the success status). -/
theorem parse_exception_containment :
    (∀ k, (program ParseOutcome.stdExc k).status = ExitKind.ret 1 ∧
        (program ParseOutcome.stdExc k).objects = [] ∧
        (program ParseOutcome.stdExc k).teardown = false) ∧
    (∀ c k, program (ParseOutcome.unknownExc c) k = mainRun c k) :=
  ⟨fun _ => ⟨rfl, rfl, rfl⟩, fun _ _ => rfl⟩

/-- C8: the configuration layer is deterministic — for one and the same
sequence of parsed options (which includes the seed), any two runs derive
exactly the same sparseness and plasticity parameters and attach the same
monitors, whatever the kernel oracle (rank, run result, stochastic counts)
does in each run. -/
theorem config_layer_deterministic (o : Options) (j k : Kernel) :
    (program (ParseOutcome.parsed o) j).derived =
      (program (ParseOutcome.parsed o) k).derived ∧
    (program (ParseOutcome.parsed o) j).monitors =
      (program (ParseOutcome.parsed o) k).monitors := by
  simp only [program]
  by_cases hh : o.help = true
  · simp [hh]
  · rw [if_neg hh, if_neg hh]
    unfold mainRun
    split_ifs <;> exact ⟨rfl, rfl⟩

/-- C9: whenever monitoring is enabled (`nomon = false`) and the run passes
the bounds checks, the spike recorders on the input (`poisson`) and output
(`poneurons`) populations are attached for every setting of the plasticity
flags, while trace/weight probes are attached exactly when the BCPNN rule
is selected. -/
theorem spike_recorders_always_attached (c : Config) (k : Kernel)
    (hn : c.npostsyn ≤ (c.nbinputs : ℚ))
    (hm : c.nomon = false)
    (h1 : ¬c.nbinputs < uwrap c.ipre)
    (h2 : ¬c.size < uwrap c.ipost) :
    Monitor.spikeMon PopId.poisson "prspikes" ∈ (mainRun c k).monitors ∧
    Monitor.spikeMon PopId.poneurons "pospikes" ∈ (mainRun c k).monitors ∧
    ((∃ m ∈ (mainRun c k).monitors, m.isProbe = true) ↔ c.with_bcpnn = true) := by
  have hlt : ¬c.npostsyn > (c.nbinputs : ℚ) := not_lt.mpr hn
  unfold mainRun
  rw [if_neg hlt, if_neg (fun h => h1 h.2), if_neg (fun h => h2 h.2)]
  refine ⟨by simp [monitorList, hm, spikeRecorders], by simp [monitorList, hm, spikeRecorders], ?_⟩
  by_cases hb : c.with_bcpnn = true
  · refine ⟨fun _ => hb, fun _ => ?_⟩
    exact ⟨Monitor.preTraceMon .poisson c.tau_z_pr c.ipre "zi",
      by simp [monitorList, hm, hb, bcpnnProbes], rfl⟩
  · simp only [Bool.not_eq_true] at hb
    simp [monitorList, hm, hb, spikeRecorders, Monitor.isProbe]

/-- C9 witness: with both plasticity flags set and default bounds, both
spike recorders are attached and probes are present (BCPNN selected). -/
theorem spike_recorders_always_attached_witness :
    Monitor.spikeMon PopId.poisson "prspikes" ∈ (mainRun cBoth kDet).monitors ∧
    Monitor.spikeMon PopId.poneurons "pospikes" ∈ (mainRun cBoth kDet).monitors ∧
    ((∃ m ∈ (mainRun cBoth kDet).monitors, m.isProbe = true) ↔
      cBoth.with_bcpnn = true) :=
  spike_recorders_always_attached cBoth kDet (by decide) rfl (by decide)
    (by decide)

/-- C10: the conditionally-constructed plasticity handles are only touched
under their flags — every dereference of the STDP handle (parameter setup,
count query, reduction) implies `with_stdp`, every dereference of the BCPNN
handle implies `with_bcpnn`, and the reduced global counts are read only at
rank 0 and only under the same flag that guarded their reduction. -/
theorem plasticity_handles_flag_guarded (c : Config) (k : Kernel) :
    (Event.derefStdpSetup ∈ (mainRun c k).events → c.with_stdp = true) ∧
    (Event.derefStdpCount ∈ (mainRun c k).events → c.with_stdp = true) ∧
    (Event.reduceStdp ∈ (mainRun c k).events → c.with_stdp = true) ∧
    (Event.readStdpGlobal ∈ (mainRun c k).events →
      c.with_stdp = true ∧ k.rank = 0) ∧
    (Event.derefBcpnnSetup ∈ (mainRun c k).events → c.with_bcpnn = true) ∧
    (Event.derefBcpnnCount ∈ (mainRun c k).events → c.with_bcpnn = true) ∧
    (Event.reduceBcpnn ∈ (mainRun c k).events → c.with_bcpnn = true) ∧
    (Event.readBcpnnGlobal ∈ (mainRun c k).events →
      c.with_bcpnn = true ∧ k.rank = 0) := by
  unfold mainRun setupEvents countEvents reportEvents
  split_ifs <;> simp_all

/-- C10 witness: with both flags set at rank 0, the global-count read event
occurs and the theorem yields the guarding facts. -/
theorem plasticity_handles_flag_guarded_witness :
    cBoth.with_stdp = true ∧ kDet.rank = 0 :=
  (plasticity_handles_flag_guarded cBoth kDet).2.2.2.1 (by decide)

end SimBcpnn
